import Mathlib

/-!
Verification of `solo/methods/linear.py` (`LinearModel`, linear evaluation)
against its specification.

The embedding is shallow: Python dicts with string keys become association
lists `List (String × ℚ)`, tensors become lists over `ℚ` (a batch of images is
a `List (List ℚ)` whose outer length is the batch dimension), and fallible
Python code (assertions, `KeyError`, `AttributeError`, `ValueError`) becomes
`Except`-valued functions.  External library functions whose numeric output no
claim depends on (the backbone forward pass, `F.cross_entropy`, the configured
loss function, `accuracy_at_k`, the mixup transform) are carried as function
fields of an explicit context, so that `shared_step` and friends are faithful
to the control flow of the source while remaining executable.
-/

set_option autoImplicit false

namespace SoloLinear

/-- Association-list lookup, embedding `d[k]` on a Python dict with string
keys (Python raises `KeyError` when absent; here the caller inspects the
`Option`). -/
def lookup (m : List (String × ℚ)) (k : String) : Option ℚ :=
  (m.find? (fun p => p.1 = k)).map Prod.snd

/-- The keys of a metrics dict, in insertion order (Python dicts preserve
insertion order). -/
def keys (m : List (String × ℚ)) : List String :=
  m.map Prod.fst

/-- Embedding of `d[k]` where a missing key raises `KeyError`. -/
def getKey (m : List (String × ℚ)) (k : String) : Except String ℚ :=
  match lookup m k with
  | some v => .ok v
  | none => .error ("KeyError: " ++ k)

/-- Context of external callables and module mode used by
`LinearModel.shared_step` (linear.py:313-341).  `forwardLogits` is
`self(X)["logits"]` (the frozen backbone composed with the classifier),
`loss_func` is the configured loss (used on the mixup path), `cross_entropy`
is `F.cross_entropy`, `accuracy_at_k` returns `(acc1, acc5)`, `mixup_func` is
the optional mixup transform returning transformed inputs and soft labels, and
`training` is the Lightning module's training-mode flag. -/
structure SharedCtx where
  forwardLogits : List (List ℚ) → List (List ℚ)
  loss_func : List (List ℚ) → List (List ℚ) → ℚ
  cross_entropy : List (List ℚ) → List ℤ → ℚ
  accuracy_at_k : List (List ℚ) → List ℤ → ℚ × ℚ
  mixup_func : Option (List (List ℚ) → List ℤ → List (List ℚ) × List (List ℚ))
  training : Bool

/-- Embedding of `LinearModel.shared_step` (linear.py:313-341).  The batch is
`(X, target)`; `X.size(0)` is `X.length`.  The metrics dict starts with
`batch_size`; if the module is in training mode and a mixup function is
configured, inputs and labels are mixed, the configured loss is applied and
only `loss` is added; otherwise plain cross-entropy plus top-1/top-5 accuracy
are added. -/
def shared_step (ctx : SharedCtx) (X : List (List ℚ)) (target : List ℤ) :
    List (String × ℚ) :=
  match ctx.training, ctx.mixup_func with
  | true, some mixup =>
      let p := mixup X target
      let out := ctx.forwardLogits p.1
      [("batch_size", (X.length : ℚ)), ("loss", ctx.loss_func out p.2)]
  | _, _ =>
      let out := ctx.forwardLogits X
      let a := ctx.accuracy_at_k out target
      [("batch_size", (X.length : ℚ)), ("loss", ctx.cross_entropy out target),
       ("acc1", a.1), ("acc5", a.2)]

/-- Embedding of `LinearModel.validation_step` (linear.py:367-388): calls
`shared_step` and builds the results dict by indexing `out["batch_size"]`,
`out["loss"]`, `out["acc1"]`, `out["acc5"]` in that order; a missing key
raises `KeyError`. -/
def validation_step (ctx : SharedCtx) (X : List (List ℚ)) (target : List ℤ) :
    Except String (List (String × ℚ)) := do
  let out := shared_step ctx X target
  let bs ← getKey out "batch_size"
  let l ← getKey out "loss"
  let a1 ← getKey out "acc1"
  let a5 ← getKey out "acc5"
  return [("batch_size", bs), ("val_loss", l), ("val_acc1", a1),
          ("val_acc5", a5)]

/-- A framework parameter (`torch.nn.Parameter`): its gradient-tracking flag
and its (possibly unpopulated) gradient. -/
structure TParam where
  requires_grad : Bool
  grad : Option ℚ
deriving Repr, DecidableEq

/-- The backbone as consulted by `LinearModel`: the two possible
feature-dimensionality attributes (`inplanes`, `num_features`), its
parameters (kept per layer so that layer-wise decay grouping is expressible),
and its train/eval mode flag. -/
structure Backbone where
  inplanes : Option Nat
  num_features : Option Nat
  layers : List (List TParam)
  training : Bool
deriving Repr, DecidableEq

/-- `backbone.parameters()`: all parameters, in layer order. -/
def Backbone.parameters (b : Backbone) : List TParam :=
  b.layers.flatten

/-- An `nn.Linear(in_features, out_features)` layer together with its freshly
created parameters (created with `requires_grad = True` and no gradient). -/
structure Linear where
  in_features : Nat
  out_features : Nat
  params : List TParam
deriving Repr, DecidableEq

/-- `nn.Linear` allocation: one weight row per output plus one bias per
output, all trainable and with unpopulated gradients. -/
def nnLinear (inF outF : Nat) : Linear :=
  { in_features := inF, out_features := outF,
    params := List.replicate (outF * inF + outF) ⟨true, none⟩ }

/-- The hyperparameter bundle stored by `LinearModel.__init__`
(linear.py:51-131).  `layer_decay` is `self.extra_args.get("layer_decay", 0)`
and `exclude_bias_n_norm_wd` is `self.extra_args.get("exclude_bias_n_norm_wd",
False)` (linear.py:224, 245). -/
structure Config where
  num_classes : Nat
  max_epochs : Nat
  optimizer : String
  lr : ℚ
  weight_decay : ℚ
  scheduler : String
  min_lr : ℚ
  warmup_start_lr : ℚ
  warmup_epochs : ℚ
  finetune : Bool
  scheduler_interval : String
  lr_decay_steps : Option (List Nat)
  layer_decay : ℚ
  exclude_bias_n_norm_wd : Bool
deriving Repr, DecidableEq

/-- `LinearModel._OPTIMIZERS.keys()` (linear.py:37-42). -/
def OPTIMIZERS : List String := ["sgd", "lars", "adam", "adamw"]

/-- `LinearModel._SCHEDULERS` (linear.py:43-49), which is also exactly the set
of names `configure_optimizers` dispatches on without raising. -/
def SCHEDULERS : List String := ["reduce", "warmup_cosine", "step", "exponential", "none"]

/-- `param.requires_grad = False` over every backbone parameter
(linear.py:133-135). -/
def freezeBackbone (b : Backbone) : Backbone :=
  { b with layers := b.layers.map (List.map (fun p => { p with requires_grad := false })) }

/-- The state of a constructed `LinearModel` that the claims consult: the
(possibly frozen) backbone, the classifier, and the stored configuration. -/
structure ModelState where
  backbone : Backbone
  classifier : Linear
  cfg : Config
deriving Repr, DecidableEq

/-- Feature-dimensionality lookup of `LinearModel.__init__`
(linear.py:102-105): `hasattr(backbone, "inplanes")` wins, else
`backbone.num_features`, else Python raises `AttributeError`. -/
def featuresDim (b : Backbone) : Except String Nat :=
  match b.inplanes with
  | some d => .ok d
  | none =>
    match b.num_features with
    | some d => .ok d
    | none => .error "AttributeError: num_features"

/-- Embedding of `LinearModel.__init__` (linear.py:51-145): derive the
feature dimensionality, allocate the classifier, assert the scheduler
interval is `"step"` or `"epoch"` (linear.py:125), and freeze every backbone
parameter when `finetune` is false (linear.py:133-135). -/
def linearModelInit (b : Backbone) (cfg : Config) : Except String ModelState := do
  let d ← featuresDim b
  let classifier := nnLinear d cfg.num_classes
  if cfg.scheduler_interval = "step" ∨ cfg.scheduler_interval = "epoch" then
    let b2 := if cfg.finetune then b else freezeBackbone b
    return { backbone := b2, classifier := classifier, cfg := cfg }
  else
    .error "AssertionError: scheduler_interval"

/-- A parameter-group dict as handed to the optimizer constructor: the
`"name"`/`"params"` entries always present, plus the optional `"lr_scale"` and
`"weight_decay"` entries produced by the layer-decay grouping helper. -/
structure ParamGroup where
  name : String
  params : List TParam
  lr_scale : Option ℚ := none
  weight_decay : Option ℚ := none
deriving Repr, DecidableEq

/-- What `configure_optimizers` binds to `learnable_params`: either a plain
parameter iterable (`self.classifier.parameters()`) or a list of group dicts. -/
inductive LearnableParams where
  | iterable (ps : List TParam)
  | groups (gs : List ParamGroup)
deriving Repr, DecidableEq

/-- Modelled from the spec: `param_groups_layer_decay` (solo/utils/misc.py, not
under src/) groups the backbone's parameters per layer, each group carrying a
learning-rate multiplier decayed geometrically with depth (deeper layers get a
larger multiplier) and the configured weight decay. -/
def param_groups_layer_decay (layers : List (List TParam))
    (weight_decay layer_decay : ℚ) : List ParamGroup :=
  (layers.zip (List.range layers.length)).map fun p =>
    { name := "backbone_layer_" ++ toString p.2, params := p.1,
      lr_scale := some (layer_decay ^ (layers.length - p.2)),
      weight_decay := some weight_decay }

/-- The scheduler objects `configure_optimizers` can construct
(linear.py:270-286): `LinearWarmupCosineAnnealingLR` with its four arguments,
`ReduceLROnPlateau`, `MultiStepLR` with milestones and gamma, and
`ExponentialLR` with its gamma. -/
inductive Scheduler where
  | linearWarmupCosine (warmup_epochs max_epochs warmup_start_lr eta_min : ℚ)
  | reduceLROnPlateau
  | multiStepLR (milestones : Option (List Nat)) (gamma : ℚ)
  | exponentialLR (gamma : ℚ)
deriving Repr, DecidableEq

/-- An element of the scheduler list returned to the trainer: either the dict
spec `{"scheduler": ..., "interval": ..., "frequency": ...}` built on the
warmup-cosine path, or a raw scheduler object (reduce/step/exponential). -/
inductive SchedulerSpec where
  | dict (s : Scheduler) (interval : String) (frequency : Nat)
  | raw (s : Scheduler)
deriving Repr, DecidableEq

/-- The optimizer object as instantiated at linear.py:248-253: its class name,
the parameter groups it was given, the base learning rate and weight decay. -/
structure Optimizer where
  kind : String
  param_groups : LearnableParams
  lr : ℚ
  weight_decay : ℚ
deriving Repr, DecidableEq

/-- The distinguishable failures of `configure_optimizers`: the optimizer-name
assertion (linear.py:221), the layer-decay-without-finetune assertion
(linear.py:226), and the unsupported-scheduler `ValueError`
(linear.py:288-290). -/
inductive CfgError where
  | badOptimizer
  | layerDecayWithoutFinetune
  | badScheduler
deriving Repr, DecidableEq

/-- The successful result of `configure_optimizers`: the bare optimizer (the
`scheduler == "none"` early return, linear.py:256-257) or the
`[optimizer], [scheduler]` pair (linear.py:292). -/
inductive CfgResult where
  | bare (opt : Optimizer)
  | withScheds (opts : List Optimizer) (scheds : List SchedulerSpec)
deriving Repr, DecidableEq

/-- Embedding of `LinearModel.configure_optimizers` (linear.py:209-292).
`est` is `self.trainer.estimated_stepping_batches`; `excludeFn` stands for the
external helper `remove_bias_and_norm_from_weight_decay` (solo/utils/misc.py,
not under src/), applied exactly when the `exclude_bias_n_norm_wd` extra
option is set. -/
def configure_optimizers (st : ModelState) (est : ℚ)
    (excludeFn : LearnableParams → LearnableParams) : Except CfgError CfgResult :=
  let cfg := st.cfg
  if cfg.optimizer ∈ OPTIMIZERS then
    let lpE : Except CfgError LearnableParams :=
      if cfg.layer_decay > 0 then
        if cfg.finetune then
          .ok (.groups
            (param_groups_layer_decay st.backbone.layers cfg.weight_decay cfg.layer_decay ++
              [{ name := "classifier", params := st.classifier.params }]))
        else
          .error .layerDecayWithoutFinetune
      else
        .ok (if cfg.finetune then
          .groups [{ name := "backbone", params := st.backbone.parameters },
                   { name := "classifier", params := st.classifier.params }]
        else
          .iterable st.classifier.params)
    match lpE with
    | .error e => .error e
    | .ok lp0 =>
      let lp := if cfg.exclude_bias_n_norm_wd then excludeFn lp0 else lp0
      let opt : Optimizer :=
        { kind := cfg.optimizer, param_groups := lp, lr := cfg.lr,
          weight_decay := cfg.weight_decay }
      if cfg.scheduler = "none" then
        .ok (.bare opt)
      else if cfg.scheduler = "warmup_cosine" then
        let max_warmup_steps : ℚ :=
          if cfg.scheduler_interval = "step" then
            cfg.warmup_epochs * (est / (cfg.max_epochs : ℚ))
          else cfg.warmup_epochs
        let max_scheduler_steps : ℚ :=
          if cfg.scheduler_interval = "step" then est else (cfg.max_epochs : ℚ)
        let sched := SchedulerSpec.dict
          (.linearWarmupCosine max_warmup_steps max_scheduler_steps
            (if cfg.warmup_epochs > 0 then cfg.warmup_start_lr else cfg.lr)
            cfg.min_lr)
          cfg.scheduler_interval 1
        .ok (.withScheds [opt] [sched])
      else if cfg.scheduler = "reduce" then
        .ok (.withScheds [opt] [.raw .reduceLROnPlateau])
      else if cfg.scheduler = "step" then
        .ok (.withScheds [opt] [.raw (.multiStepLR cfg.lr_decay_steps (1 / 10))])
      else if cfg.scheduler = "exponential" then
        .ok (.withScheds [opt] [.raw (.exponentialLR cfg.weight_decay)])
      else
        .error .badScheduler
  else
    .error .badOptimizer

/-- Framework semantics of one backward/optimizer step on a single parameter:
torch autograd populates `.grad` exactly on parameters that track gradients
and participated in the compute graph. -/
def populateGrad (p : TParam) : TParam :=
  if p.requires_grad then { p with grad := some 0 } else p

/-- State effect of `LinearModel.training_step` (linear.py:343-365) followed
by the framework's backward pass.  When not fine-tuning, the backbone is
forced into eval mode (linear.py:355-356).  The backbone forward runs under
`torch.set_grad_enabled(self.finetune)` (linear.py:307), so backbone
parameters participate in the compute graph exactly when fine-tuning;
classifier parameters always participate. -/
def trainingStepState (st : ModelState) : ModelState :=
  let b1 := if st.cfg.finetune then st.backbone
            else { st.backbone with training := false }
  let b2 := if st.cfg.finetune then { b1 with layers := b1.layers.map (List.map populateGrad) }
            else b1
  { st with
    backbone := b2,
    classifier := { st.classifier with params := st.classifier.params.map populateGrad } }

/-- `out[key]` where the aggregation helper only ever sees dicts that contain
the key; a missing key is read as 0 (it never occurs in the claims). -/
def lookupD (m : List (String × ℚ)) (k : String) : ℚ :=
  (lookup m k).getD 0

/-- Modelled from the spec: `weighted_mean` (solo/utils/metrics.py, not under
src/) computes the batch-size-weighted mean of the values stored under `key`
across the per-batch dicts, weighted by the values under `batch_size_key`. -/
def weighted_mean (outs : List (List (String × ℚ))) (key batch_size_key : String) : ℚ :=
  (outs.map fun out => lookupD out key * lookupD out batch_size_key).sum /
    (outs.map fun out => lookupD out batch_size_key).sum

/-- Embedding of `LinearModel.validation_epoch_end` (linear.py:390-404): the
dict of the three batch-size-weighted aggregates handed to `log_dict`. -/
def validation_epoch_end (outs : List (List (String × ℚ))) : List (String × ℚ) :=
  [("val_loss", weighted_mean outs "val_loss" "batch_size"),
   ("val_acc1", weighted_mean outs "val_acc1" "batch_size"),
   ("val_acc5", weighted_mean outs "val_acc5" "batch_size")]

/-- The optimizers contained in a `configure_optimizers` result. -/
def CfgResult.optimizers : CfgResult → List Optimizer
  | .bare o => [o]
  | .withScheds os _ => os

/-- C1: for every (images, integer-labels) batch, `shared_step` returns a
metrics record whose fields are determined by the path condition (training
mode AND a mixup function configured): on the mixup path exactly
`{batch_size, loss}`, on the standard path exactly
`{batch_size, loss, acc1, acc5}`; in both cases `batch_size` is the first
dimension of the input tensor. -/
theorem shared_step_metrics (ctx : SharedCtx) (X : List (List ℚ)) (target : List ℤ) :
    keys (shared_step ctx X target) =
      (if ctx.training = true ∧ ctx.mixup_func.isSome = true then
        ["batch_size", "loss"]
      else
        ["batch_size", "loss", "acc1", "acc5"]) ∧
    lookup (shared_step ctx X target) "batch_size" = some (X.length : ℚ) := by
  obtain ⟨fl, lf, ce, ak, mf, tr⟩ := ctx
  cases tr <;> cases mf <;>
    simp [shared_step, keys, lookup, List.find?]

set_option maxHeartbeats 2000000 in
/-- C2: `configure_optimizers` fails with the invalid-optimizer assertion
exactly for optimizer names outside `{sgd, lars, adam, adamw}`, fails with
the unsupported-scheduler `ValueError` exactly for valid optimizer names,
scheduler names outside `{reduce, warmup_cosine, step, exponential, none}`,
and no earlier layer-decay assertion failure; and it succeeds exactly when
both names are in their enumerations and the layer-decay assertion passes,
so names inside both enumerations never produce a name-validation error. -/
theorem configure_optimizers_name_check (st : ModelState) (est : ℚ)
    (f : LearnableParams → LearnableParams) :
    ((∃ r, configure_optimizers st est f = Except.ok r) ↔
      (st.cfg.optimizer ∈ OPTIMIZERS ∧ st.cfg.scheduler ∈ SCHEDULERS ∧
        ¬(st.cfg.layer_decay > 0 ∧ st.cfg.finetune = false))) ∧
    (configure_optimizers st est f = Except.error CfgError.badOptimizer ↔
      st.cfg.optimizer ∉ OPTIMIZERS) ∧
    (configure_optimizers st est f = Except.error CfgError.badScheduler ↔
      (st.cfg.optimizer ∈ OPTIMIZERS ∧ st.cfg.scheduler ∉ SCHEDULERS ∧
        ¬(st.cfg.layer_decay > 0 ∧ st.cfg.finetune = false))) := by
  obtain ⟨b, c, cfg⟩ := st
  simp only [configure_optimizers]
  split_ifs <;> simp_all [SCHEDULERS]

/-- C10: when the module is not in training mode or no mixup function is
configured, `validation_step`'s lookups into the `shared_step` result all
succeed and it returns a record with exactly the keys
`{batch_size, val_loss, val_acc1, val_acc5}`; when invoked in training mode
with a mixup function configured, the accuracy lookup fails with a
missing-key error on `acc1`. -/
theorem validation_step_result (ctx : SharedCtx) (X : List (List ℚ)) (target : List ℤ) :
    validation_step ctx X target =
      (if ctx.training = true ∧ ctx.mixup_func.isSome = true then
        Except.error "KeyError: acc1"
      else
        Except.ok [("batch_size", (X.length : ℚ)),
                   ("val_loss", ctx.cross_entropy (ctx.forwardLogits X) target),
                   ("val_acc1", (ctx.accuracy_at_k (ctx.forwardLogits X) target).1),
                   ("val_acc5", (ctx.accuracy_at_k (ctx.forwardLogits X) target).2)]) := by
  obtain ⟨fl, lf, ce, ak, mf, tr⟩ := ctx
  cases tr <;> cases mf <;>
    simp [validation_step, shared_step, getKey, lookup, List.find?,
      Bind.bind, Except.bind, Pure.pure, Except.pure]

theorem linearModelInit_ok (b : Backbone) (cfg : Config) (st : ModelState)
    (hok : linearModelInit b cfg = Except.ok st) :
    ∃ d, featuresDim b = Except.ok d ∧
      st = { backbone := if cfg.finetune then b else freezeBackbone b,
             classifier := nnLinear d cfg.num_classes, cfg := cfg } := by
  rcases hfd : featuresDim b with e | d
  · simp [linearModelInit, hfd, Bind.bind, Except.bind] at hok
  · refine ⟨d, rfl, ?_⟩
    simp only [linearModelInit, hfd, Bind.bind, Except.bind] at hok
    split at hok
    · simp only [Pure.pure, Except.pure, Except.ok.injEq] at hok
      exact hok.symm
    · exact absurd hok (by simp)

theorem freezeBackbone_requires_grad (b : Backbone) :
    ∀ p ∈ (freezeBackbone b).parameters, p.requires_grad = false := by
  intro p hp
  simp only [freezeBackbone, Backbone.parameters, List.mem_flatten,
    List.mem_map] at hp
  obtain ⟨l, ⟨l0, hl0, rfl⟩, hpl⟩ := hp
  obtain ⟨q, hq, rfl⟩ := List.mem_map.mp hpl
  rfl

theorem populateGrad_requires_grad (p : TParam) :
    (populateGrad p).requires_grad = p.requires_grad := by
  simp only [populateGrad]
  split <;> rfl

theorem map_populateGrad_requires_grad (l : List TParam) :
    l.map (TParam.requires_grad ∘ populateGrad) = l.map TParam.requires_grad := by
  induction l with
  | nil => rfl
  | cons p ps ih => simp [ih, Function.comp, populateGrad_requires_grad]

theorem layers_populateGrad_requires_grad (L : List (List TParam)) :
    L.map (List.map (TParam.requires_grad ∘ populateGrad)) =
      L.map (List.map TParam.requires_grad) := by
  induction L with
  | nil => rfl
  | cons l ls ih => simp [ih, map_populateGrad_requires_grad l]

/-- C3: construction derives the feature dimensionality by consulting
`inplanes` and then `num_features` (the first recognized attribute wins when
both exist) and fails when neither exists; it fails when
`scheduler_interval` is neither "step" nor "epoch"; otherwise it allocates a
linear classifier whose output width equals the configured class count. -/
theorem linearModelInit_spec (b : Backbone) (cfg : Config) :
    (∀ d, b.inplanes = some d → featuresDim b = Except.ok d) ∧
    (∀ d, b.inplanes = none → b.num_features = some d →
      featuresDim b = Except.ok d) ∧
    (b.inplanes = none → b.num_features = none →
      linearModelInit b cfg = Except.error "AttributeError: num_features") ∧
    (¬(cfg.scheduler_interval = "step" ∨ cfg.scheduler_interval = "epoch") →
      ∀ st, linearModelInit b cfg ≠ Except.ok st) ∧
    (∀ d, featuresDim b = Except.ok d →
      (cfg.scheduler_interval = "step" ∨ cfg.scheduler_interval = "epoch") →
      ∃ st, linearModelInit b cfg = Except.ok st ∧
        st.classifier.out_features = cfg.num_classes ∧
        st.classifier.in_features = d) := by
  refine ⟨?_, ?_, ?_, ?_, ?_⟩
  · intro d hd
    simp [featuresDim, hd]
  · intro d h1 h2
    simp [featuresDim, h1, h2]
  · intro h1 h2
    simp [linearModelInit, featuresDim, h1, h2, Bind.bind, Except.bind]
  · intro hiv st
    rcases hfd : featuresDim b with e | d <;>
      simp [linearModelInit, hfd, hiv, Bind.bind, Except.bind]
  · intro d hd hiv
    refine ⟨{ backbone := if cfg.finetune then b else freezeBackbone b,
              classifier := nnLinear d cfg.num_classes, cfg := cfg },
            ?_, rfl, rfl⟩
    simp [linearModelInit, hd, hiv, Bind.bind, Except.bind, Pure.pure, Except.pure]

/-- C4: when the fine-tune flag is false, construction disables
`requires_grad` on every backbone parameter, and the training step leaves
every backbone gradient exactly as it was (none gets populated); classifier
parameters are trainable for every successful construction, in both modes;
and the training step (the only state-changing operation of the component)
never changes any backbone `requires_grad` flag, so backbone gradient
tracking is never re-enabled. -/
theorem finetune_false_freezes (b : Backbone) (cfg : Config) (st : ModelState)
    (hft : cfg.finetune = false) (hok : linearModelInit b cfg = Except.ok st) :
    (∀ p ∈ st.backbone.parameters, p.requires_grad = false) ∧
    ((trainingStepState st).backbone.parameters.map TParam.grad =
      st.backbone.parameters.map TParam.grad) ∧
    (∀ (b' : Backbone) (cfg' : Config) (st' : ModelState),
      linearModelInit b' cfg' = Except.ok st' →
      ∀ p ∈ st'.classifier.params, p.requires_grad = true) ∧
    (∀ st' : ModelState,
      (trainingStepState st').backbone.parameters.map TParam.requires_grad =
        st'.backbone.parameters.map TParam.requires_grad) := by
  obtain ⟨d, hfd, rfl⟩ := linearModelInit_ok b cfg st hok
  refine ⟨?_, ?_, ?_, ?_⟩
  · intro p hp
    apply freezeBackbone_requires_grad b p
    simpa [hft] using hp
  · simp [trainingStepState, hft, Backbone.parameters]
  · intro b' cfg' st' hok' p hp
    obtain ⟨d', hfd', rfl⟩ := linearModelInit_ok b' cfg' st' hok'
    simp only [nnLinear] at hp
    exact (List.eq_of_mem_replicate hp) ▸ rfl
  · intro st'
    cases hft' : st'.cfg.finetune <;>
      simp [trainingStepState, hft', Backbone.parameters, List.map_flatten,
        layers_populateGrad_requires_grad, map_populateGrad_requires_grad]

/-- A per-batch validation result with a batch size, a validation loss and
the two accuracies, shaped exactly like the record `validation_step`
returns, as collected by the trainer for `validation_epoch_end`. -/
def mkValOut (w v a1 a5 : ℚ) : List (String × ℚ) :=
  [("batch_size", w), ("val_loss", v), ("val_acc1", a1), ("val_acc5", a5)]

theorem lookupD_mkValOut_size (w v a1 a5 : ℚ) :
    lookupD (mkValOut w v a1 a5) "batch_size" = w := by
  simp [lookupD, lookup, mkValOut, List.find?]

theorem lookupD_mkValOut_loss (w v a1 a5 : ℚ) :
    lookupD (mkValOut w v a1 a5) "val_loss" = v := by
  simp [lookupD, lookup, mkValOut, List.find?]

theorem lookupD_mkValOut_acc1 (w v a1 a5 : ℚ) :
    lookupD (mkValOut w v a1 a5) "val_acc1" = a1 := by
  simp [lookupD, lookup, mkValOut, List.find?]

theorem lookupD_mkValOut_acc5 (w v a1 a5 : ℚ) :
    lookupD (mkValOut w v a1 a5) "val_acc5" = a5 := by
  simp [lookupD, lookup, mkValOut, List.find?]

/-- C5: `validation_epoch_end` aggregates each of `val_loss`, `val_acc1` and
`val_acc5` as the batch-size-weighted mean of the ordered per-batch results
— the sum of value·size over the batches divided by the sum of sizes — and
on batch sizes `[3, 3, 2]` with losses `[1, 2, 3]` the aggregated `val_loss`
is exactly `(3·1 + 3·2 + 2·3) / 8 = 1.875`. -/
theorem validation_epoch_end_weighted (outs : List (ℚ × ℚ × ℚ × ℚ)) :
    (lookup (validation_epoch_end
        (outs.map fun p => mkValOut p.1 p.2.1 p.2.2.1 p.2.2.2)) "val_loss" =
      some ((outs.map fun p => p.2.1 * p.1).sum / (outs.map fun p => p.1).sum)) ∧
    (lookup (validation_epoch_end
        (outs.map fun p => mkValOut p.1 p.2.1 p.2.2.1 p.2.2.2)) "val_acc1" =
      some ((outs.map fun p => p.2.2.1 * p.1).sum / (outs.map fun p => p.1).sum)) ∧
    (lookup (validation_epoch_end
        (outs.map fun p => mkValOut p.1 p.2.1 p.2.2.1 p.2.2.2)) "val_acc5" =
      some ((outs.map fun p => p.2.2.2 * p.1).sum / (outs.map fun p => p.1).sum)) ∧
    (lookup (validation_epoch_end
        [mkValOut 3 1 90 95, mkValOut 3 2 80 85, mkValOut 2 3 70 75]) "val_loss" =
      some (15 / 8)) := by
  refine ⟨?_, ?_, ?_, ?_⟩ <;>
    simp [validation_epoch_end, weighted_mean, lookup, List.find?, List.map_map,
      Function.comp_def, lookupD_mkValOut_loss, lookupD_mkValOut_size,
      lookupD_mkValOut_acc1, lookupD_mkValOut_acc5]
  norm_num

set_option maxHeartbeats 2000000 in
/-- C6: for scheduler `"warmup_cosine"`, `configure_optimizers` builds a
linear-warmup-then-cosine schedule whose warmup length is `warmup_epochs`
scaled by (estimated total optimizer steps ÷ `max_epochs`) and whose total
length is the estimated steps when the interval is `"step"`, and
`warmup_epochs` and `max_epochs` otherwise; the warmup start learning rate
is `warmup_start_lr` when `warmup_epochs > 0` and the base learning rate
otherwise; the decay target is `min_lr`; and the scheduler spec carries the
configured interval and frequency 1. -/
theorem warmup_cosine_schedule (st : ModelState) (est : ℚ)
    (f : LearnableParams → LearnableParams)
    (hopt : st.cfg.optimizer ∈ OPTIMIZERS)
    (hld : ¬(st.cfg.layer_decay > 0 ∧ st.cfg.finetune = false))
    (hs : st.cfg.scheduler = "warmup_cosine") :
    ∃ opt, configure_optimizers st est f =
      Except.ok (CfgResult.withScheds [opt]
        [SchedulerSpec.dict
          (Scheduler.linearWarmupCosine
            (if st.cfg.scheduler_interval = "step" then
              st.cfg.warmup_epochs * (est / (st.cfg.max_epochs : ℚ))
            else st.cfg.warmup_epochs)
            (if st.cfg.scheduler_interval = "step" then est
            else (st.cfg.max_epochs : ℚ))
            (if st.cfg.warmup_epochs > 0 then st.cfg.warmup_start_lr
            else st.cfg.lr)
            st.cfg.min_lr)
          st.cfg.scheduler_interval 1]) := by
  obtain ⟨b, c, cfg⟩ := st
  simp only [configure_optimizers]
  split_ifs <;> simp_all

set_option maxHeartbeats 2000000 in
/-- C7: `configure_optimizers` returns the bare optimizer exactly when the
scheduler name is `"none"`; for every other supported scheduler name it
returns a one-element optimizer list paired with a one-element
scheduler-spec list. -/
theorem scheduler_none_bare (st : ModelState) (est : ℚ)
    (f : LearnableParams → LearnableParams)
    (hopt : st.cfg.optimizer ∈ OPTIMIZERS)
    (hld : ¬(st.cfg.layer_decay > 0 ∧ st.cfg.finetune = false)) :
    ((∃ o, configure_optimizers st est f = Except.ok (CfgResult.bare o)) ↔
      st.cfg.scheduler = "none") ∧
    (st.cfg.scheduler ∈ SCHEDULERS → st.cfg.scheduler ≠ "none" →
      ∃ o s, configure_optimizers st est f =
        Except.ok (CfgResult.withScheds [o] [s])) := by
  obtain ⟨b, c, cfg⟩ := st
  simp only [configure_optimizers]
  split_ifs <;> simp_all [SCHEDULERS]

set_option maxHeartbeats 2000000 in
/-- C8: `configure_optimizers` fails whenever a positive layer-decay extra
option is present and fine-tuning is disabled (with the dedicated assertion
error as soon as the optimizer name is valid); when a positive layer-decay
value is present and fine-tuning is enabled, every optimizer it builds is
over the backbone's per-layer decayed groups with the classifier appended as
its own group. -/
theorem layer_decay_needs_finetune (st : ModelState) (est : ℚ)
    (f : LearnableParams → LearnableParams)
    (hld : st.cfg.layer_decay > 0) :
    (st.cfg.finetune = false →
      (∀ r, configure_optimizers st est f ≠ Except.ok r) ∧
      (st.cfg.optimizer ∈ OPTIMIZERS →
        configure_optimizers st est f =
          Except.error CfgError.layerDecayWithoutFinetune)) ∧
    (st.cfg.finetune = true → st.cfg.exclude_bias_n_norm_wd = false →
      ∀ r, configure_optimizers st est f = Except.ok r →
        ∀ o ∈ r.optimizers, o.param_groups = LearnableParams.groups
          (param_groups_layer_decay st.backbone.layers st.cfg.weight_decay
              st.cfg.layer_decay ++
            [{ name := "classifier", params := st.classifier.params }])) := by
  obtain ⟨b, c, cfg⟩ := st
  simp only [configure_optimizers]
  split_ifs <;> simp_all [CfgResult.optimizers]

set_option maxHeartbeats 2000000 in
/-- C9: for scheduler `"exponential"`, `configure_optimizers` builds an
exponential-decay schedule whose gamma equals the configured weight-decay
hyperparameter. -/
theorem exponential_gamma_is_weight_decay (st : ModelState) (est : ℚ)
    (f : LearnableParams → LearnableParams)
    (hopt : st.cfg.optimizer ∈ OPTIMIZERS)
    (hld : ¬(st.cfg.layer_decay > 0 ∧ st.cfg.finetune = false))
    (hs : st.cfg.scheduler = "exponential") :
    ∃ o, configure_optimizers st est f =
      Except.ok (CfgResult.withScheds [o]
        [SchedulerSpec.raw (Scheduler.exponentialLR st.cfg.weight_decay)]) := by
  obtain ⟨b, c, cfg⟩ := st
  simp only [configure_optimizers]
  split_ifs <;> simp_all

/-- A small concrete backbone exposing both feature-dimensionality
attributes, used to evaluate the theorems at concrete inputs. -/
def bW : Backbone :=
  { inplanes := some 4, num_features := some 8,
    layers := [[⟨true, none⟩], [⟨true, none⟩, ⟨true, none⟩]], training := true }

/-- A concrete configuration mirroring the CLI defaults of linear.py
(class count 10, optimizer "sgd", scheduler "none", interval "step"). -/
def cfgW : Config :=
  { num_classes := 10, max_epochs := 100, optimizer := "sgd", lr := 3 / 10,
    weight_decay := 1 / 10000, scheduler := "none", min_lr := 0,
    warmup_start_lr := 3 / 1000, warmup_epochs := 10, finetune := false,
    scheduler_interval := "step", lr_decay_steps := none, layer_decay := 0,
    exclude_bias_n_norm_wd := false }

/-- The model state `linearModelInit bW cfgW` produces. -/
def stW : ModelState :=
  { backbone := freezeBackbone bW, classifier := nnLinear 4 10, cfg := cfgW }

/-- Witness for C2: with optimizer "sgd" and scheduler "none",
`configure_optimizers` succeeds, so neither name-validation error fires. -/
theorem configure_optimizers_name_check_witness :
    ∃ r, configure_optimizers stW 500 id = Except.ok r :=
  (configure_optimizers_name_check stW 500 id).1.mpr
    ⟨by decide, by decide, by decide⟩

/-- Witness for C3: the concrete backbone exposes `inplanes = 4`, so
construction succeeds with a classifier of output width 10 and input
width 4. -/
theorem linearModelInit_spec_witness :
    ∃ st, linearModelInit bW cfgW = Except.ok st ∧
      st.classifier.out_features = cfgW.num_classes ∧
      st.classifier.in_features = 4 :=
  (linearModelInit_spec bW cfgW).2.2.2.2 4 rfl (Or.inl rfl)

/-- Witness for C4: on the concretely constructed frozen model, a training
step leaves every backbone gradient untouched. -/
theorem finetune_false_freezes_witness :
    (trainingStepState stW).backbone.parameters.map TParam.grad =
      stW.backbone.parameters.map TParam.grad :=
  (finetune_false_freezes bW cfgW stW rfl rfl).2.1

/-- The concrete state with scheduler "warmup_cosine". -/
def stW6 : ModelState :=
  { backbone := bW, classifier := nnLinear 4 10,
    cfg := { cfgW with scheduler := "warmup_cosine" } }

/-- Witness for C6 at the concrete warmup-cosine configuration with 500
estimated stepping batches. -/
theorem warmup_cosine_schedule_witness :
    ∃ opt, configure_optimizers stW6 500 id =
      Except.ok (CfgResult.withScheds [opt]
        [SchedulerSpec.dict
          (Scheduler.linearWarmupCosine
            (if stW6.cfg.scheduler_interval = "step" then
              stW6.cfg.warmup_epochs * (500 / (stW6.cfg.max_epochs : ℚ))
            else stW6.cfg.warmup_epochs)
            (if stW6.cfg.scheduler_interval = "step" then (500 : ℚ)
            else (stW6.cfg.max_epochs : ℚ))
            (if stW6.cfg.warmup_epochs > 0 then stW6.cfg.warmup_start_lr
            else stW6.cfg.lr)
            stW6.cfg.min_lr)
          stW6.cfg.scheduler_interval 1]) :=
  warmup_cosine_schedule stW6 500 id (by simp [stW6, cfgW, OPTIMIZERS])
    (by norm_num [stW6, cfgW]) rfl

/-- Witness for C7: with scheduler "none" the result is the bare optimizer. -/
theorem scheduler_none_bare_witness :
    ∃ o, configure_optimizers stW 500 id = Except.ok (CfgResult.bare o) :=
  (scheduler_none_bare stW 500 id (by decide) (by decide)).1.mpr rfl

/-- The concrete state with a positive layer decay and fine-tuning off. -/
def stW8 : ModelState :=
  { backbone := bW, classifier := nnLinear 4 10,
    cfg := { cfgW with layer_decay := 3 / 4 } }

/-- Witness for C8: layer decay 3/4 with fine-tuning disabled makes
`configure_optimizers` fail with the dedicated assertion error. -/
theorem layer_decay_needs_finetune_witness :
    configure_optimizers stW8 500 id =
      Except.error CfgError.layerDecayWithoutFinetune :=
  ((layer_decay_needs_finetune stW8 500 id (by norm_num [stW8, cfgW])).1 rfl).2
    (by simp [stW8, cfgW, OPTIMIZERS])

/-- The concrete state with scheduler "exponential". -/
def stW9 : ModelState :=
  { backbone := bW, classifier := nnLinear 4 10,
    cfg := { cfgW with scheduler := "exponential" } }

/-- Witness for C9: with scheduler "exponential" the scheduler's gamma is
the configured weight decay. -/
theorem exponential_gamma_is_weight_decay_witness :
    ∃ o, configure_optimizers stW9 500 id =
      Except.ok (CfgResult.withScheds [o]
        [SchedulerSpec.raw (Scheduler.exponentialLR stW9.cfg.weight_decay)]) :=
  exponential_gamma_is_weight_decay stW9 500 id (by simp [stW9, cfgW, OPTIMIZERS])
    (by norm_num [stW9, cfgW]) rfl

end SoloLinear
